import Mathlib

/-!
# JNI adapter `v2ray_bridge.cpp`

The adapter exposes three entry points to the Java side and forwards each of
them to the externally linked V2Ray core, writing to the Android log on the
way.  The adapter keeps no state of its own; everything it does is a sequence
of calls into code it does not contain: the Android log, the JNI function
table, and the core.

Embedding.  Every external call is recorded, in program order, in a trace of
`Event`s.  The external functions are parameters: each one answers as a
function of the whole history of events so far and of its arguments, so the
core and the Java runtime may be arbitrarily stateful.  An entry point is a
state-passing function over the trace (`StateM World`).  The C type `int` and
the JNI type `jint` are the same 32-bit type on Android, so no conversion
happens between the core's result and the value handed to Java; both are
modelled by `Int`.
-/

namespace V2RayBridge

/-! ## Values crossing the boundary -/

/-- Byte of a native string. -/
abbrev Byte := Fin 256

/-- Value of type `const char*`: the null pointer, or the address of a
NUL-terminated buffer together with the bytes stored there (the terminator is
left out). -/
inductive CharPtr where
  | null
  | buf (addr : Nat) (bytes : List Byte)
  deriving DecidableEq, Repr

/-- Value of the JNI type `jstring`: a null reference or a reference to a
`java.lang.String` object. -/
inductive jstring where
  | null
  | ref (handle : Nat)
  deriving DecidableEq, Repr

/-- Value of the JNI type `jobject`. -/
inductive jobject where
  | null
  | ref (handle : Nat)
  deriving DecidableEq, Repr

/-- The JNI type `jint`, a 32-bit signed integer, as is the C type `int` of
the core's results. -/
abbrev jint := Int

/-- Log priorities of `android/log.h` used by the four `LOG*` definitions. -/
inductive android_LogPriority where
  | ANDROID_LOG_DEBUG
  | ANDROID_LOG_INFO
  | ANDROID_LOG_WARN
  | ANDROID_LOG_ERROR
  deriving DecidableEq, Repr

/-! ## Trace of external calls -/

/-- One external call made by the adapter, with its arguments and, where the
callee returns a value, the value it returned. -/
inductive Event where
  | android_log_print (prio : android_LogPriority) (tag : String) (fmt : String)
      (args : List Int)
  | GetStringUTFChars (string : jstring) (ret : CharPtr)
  | ReleaseStringUTFChars (string : jstring) (utf : CharPtr)
  | NewStringUTF (bytes : CharPtr) (ret : jstring)
  | startV2Ray (configPath : CharPtr) (ret : Int)
  | stopV2Ray (ret : Int)
  | getV2RayVersion (ret : CharPtr)
  deriving DecidableEq, Repr

/-- History of the external calls made so far, oldest first. -/
abbrev World := List Event

/-! ## External code, taken as parameters -/

/-- The three functions declared `extern "C"` in lines 12-21 and provided by
the V2Ray core.  Each answer may depend on everything that happened before. -/
structure V2RayCore where
  startV2Ray : World → CharPtr → Int
  stopV2Ray : World → Int
  getV2RayVersion : World → CharPtr

/-- The entries of the JNI function table that the adapter uses and that
return a value. -/
structure JNINativeInterface where
  GetStringUTFChars : World → jstring → CharPtr
  NewStringUTF : World → CharPtr → jstring

/-- The `JNIEnv` handed to every entry point. -/
structure JNIEnv where
  functions : JNINativeInterface

/-! ## The adapter -/

/-- The `TAG` of line 5. -/
def TAG : String := "V2RayBridge"

/-- Call of `__android_log_print(prio, tag, fmt, ...)`; its `int` result is
ignored at every call site. -/
def __android_log_print (prio : android_LogPriority) (tag : String) (fmt : String)
    (args : List Int) : StateM World Unit :=
  fun w => ((), w ++ [Event.android_log_print prio tag fmt args])

/-- Line 6. -/
def LOGD (fmt : String) (args : List Int) : StateM World Unit :=
  __android_log_print android_LogPriority.ANDROID_LOG_DEBUG TAG fmt args

/-- Line 7. -/
def LOGI (fmt : String) (args : List Int) : StateM World Unit :=
  __android_log_print android_LogPriority.ANDROID_LOG_INFO TAG fmt args

/-- Line 8. -/
def LOGW (fmt : String) (args : List Int) : StateM World Unit :=
  __android_log_print android_LogPriority.ANDROID_LOG_WARN TAG fmt args

/-- Line 9. -/
def LOGE (fmt : String) (args : List Int) : StateM World Unit :=
  __android_log_print android_LogPriority.ANDROID_LOG_ERROR TAG fmt args

/-- Call of `env->GetStringUTFChars(string, 0)`; the `isCopy` out-parameter is
null at the only call site, so nothing is written through it. -/
def JNIEnv.GetStringUTFChars (env : JNIEnv) (string : jstring) : StateM World CharPtr :=
  fun w =>
    let ret := env.functions.GetStringUTFChars w string
    (ret, w ++ [Event.GetStringUTFChars string ret])

/-- Call of `env->ReleaseStringUTFChars(string, utf)`, which returns nothing. -/
def JNIEnv.ReleaseStringUTFChars (_env : JNIEnv) (string : jstring) (utf : CharPtr) :
    StateM World Unit :=
  fun w => ((), w ++ [Event.ReleaseStringUTFChars string utf])

/-- Call of `env->NewStringUTF(bytes)`. -/
def JNIEnv.NewStringUTF (env : JNIEnv) (bytes : CharPtr) : StateM World jstring :=
  fun w =>
    let ret := env.functions.NewStringUTF w bytes
    (ret, w ++ [Event.NewStringUTF bytes ret])

/-- Call of the core's `startV2Ray(configPath)`. -/
def startV2Ray (core : V2RayCore) (configPath : CharPtr) : StateM World Int :=
  fun w =>
    let ret := core.startV2Ray w configPath
    (ret, w ++ [Event.startV2Ray configPath ret])

/-- Call of the core's `stopV2Ray()`. -/
def stopV2Ray (core : V2RayCore) : StateM World Int :=
  fun w =>
    let ret := core.stopV2Ray w
    (ret, w ++ [Event.stopV2Ray ret])

/-- Call of the core's `getV2RayVersion()`. -/
def getV2RayVersion (core : V2RayCore) : StateM World CharPtr :=
  fun w =>
    let ret := core.getV2RayVersion w
    (ret, w ++ [Event.getV2RayVersion ret])

/-- Lines 23-37. -/
def Java_com_v2ray_ang_flutter_1v2_1android_v2ray_V2RayNative_startV2Ray
    (core : V2RayCore) (env : JNIEnv) (_this : jobject) (configPath : jstring) :
    StateM World jint := do
  LOGI "JNI: 启动V2Ray" []
  let nativeConfigPath ← env.GetStringUTFChars configPath
  let result ← startV2Ray core nativeConfigPath
  env.ReleaseStringUTFChars configPath nativeConfigPath
  LOGI "JNI: V2Ray启动结果: %d" [result]
  return result

/-- Lines 39-46. -/
def Java_com_v2ray_ang_flutter_1v2_1android_v2ray_V2RayNative_stopV2Ray
    (core : V2RayCore) (_env : JNIEnv) (_this : jobject) : StateM World Unit := do
  LOGI "JNI: 停止V2Ray" []
  let _ ← stopV2Ray core
  return ()

/-- Lines 48-56. -/
def Java_com_v2ray_ang_flutter_1v2_1android_v2ray_V2RayNative_getV2RayVersion
    (core : V2RayCore) (env : JNIEnv) (_this : jobject) : StateM World jstring := do
  LOGI "JNI: 获取V2Ray版本" []
  let version ← getV2RayVersion core
  env.NewStringUTF version

/-! ## Observations on a trace -/

/-- Events appended to the history `before` by a run that ended in `after`. -/
def emitted (before after : World) : List Event := after.drop before.length

/-- Whether the event is a line written to the Android log. -/
def Event.isLog : Event → Bool
  | .android_log_print _ _ _ _ => true
  | _ => false

/-- Whether the event is a call into the V2Ray core. -/
def Event.isCoreCall : Event → Bool
  | .startV2Ray _ _ => true
  | .stopV2Ray _ => true
  | .getV2RayVersion _ => true
  | _ => false

/-- Whether the event is a call of the core's `startV2Ray`. -/
def Event.isStartCall : Event → Bool
  | .startV2Ray _ _ => true
  | _ => false

/-- Whether the event is a call of the core's `stopV2Ray`. -/
def Event.isStopCall : Event → Bool
  | .stopV2Ray _ => true
  | _ => false

/-- Whether the event is a call of the core's `getV2RayVersion`. -/
def Event.isVersionCall : Event → Bool
  | .getV2RayVersion _ => true
  | _ => false

/-- Log lines of a trace, in order. -/
def logLines (t : List Event) : List Event := t.filter Event.isLog

/-- Arguments the core's `startV2Ray` was called with, in order. -/
def coreStartArgs (t : List Event) : List CharPtr :=
  t.filterMap fun e => match e with
    | .startV2Ray p _ => some p
    | _ => none

/-- Integers the core's `startV2Ray` returned, in order. -/
def coreStartResults (t : List Event) : List Int :=
  t.filterMap fun e => match e with
    | .startV2Ray _ r => some r
    | _ => none

/-- Native strings borrowed with `GetStringUTFChars`: the Java string and the
pointer obtained for it. -/
def acquired (t : List Event) : List (jstring × CharPtr) :=
  t.filterMap fun e => match e with
    | .GetStringUTFChars s p => some (s, p)
    | _ => none

/-- Pairs handed to `ReleaseStringUTFChars`, in order. -/
def released (t : List Event) : List (jstring × CharPtr) :=
  t.filterMap fun e => match e with
    | .ReleaseStringUTFChars s p => some (s, p)
    | _ => none

/-- Part of a trace that precedes its first call into the core. -/
def beforeCoreCall (t : List Event) : List Event :=
  t.takeWhile fun e => !e.isCoreCall

/-- Part of a trace that follows its first call into the core. -/
def afterCoreCall (t : List Event) : List Event :=
  (t.dropWhile fun e => !e.isCoreCall).drop 1

/-! ## A stubbed core and runtime, for concrete runs -/

/-- Core whose `startV2Ray` and `stopV2Ray` return `code` and whose
`getV2RayVersion` returns `version`. -/
def stubCore (code : Int) (version : CharPtr) : V2RayCore where
  startV2Ray := fun _ _ => code
  stopV2Ray := fun _ => code
  getV2RayVersion := fun _ => version

/-- UTF-8 bytes of the Java strings of the stubbed runtime: string 0 is empty,
string 1 is `/c.json`, every other string is `/`. -/
def stubUtf (h : Nat) : List Byte :=
  if h = 0 then [] else if h = 1 then [47, 99, 46, 106, 115, 111, 110] else [47]

/-- Runtime in which the string with handle `h` has the bytes `stubUtf h` at
address `4096 + h`, a null reference yields a null pointer, and `NewStringUTF`
numbers the new string by the address it was built from. -/
def stubEnv : JNIEnv where
  functions :=
    { GetStringUTFChars := fun _ s =>
        match s with
        | .null => CharPtr.null
        | .ref h => CharPtr.buf (4096 + h) (stubUtf h)
      NewStringUTF := fun _ p =>
        match p with
        | .null => jstring.null
        | .buf a _ => jstring.ref a }

/-- The pre-call log line of the start entry point. -/
def startLog : Event :=
  Event.android_log_print android_LogPriority.ANDROID_LOG_INFO "V2RayBridge" "JNI: 启动V2Ray" []

/-- The post-call log line of the start entry point for the result `r`. -/
def startResultLog (r : Int) : Event :=
  Event.android_log_print android_LogPriority.ANDROID_LOG_INFO "V2RayBridge"
    "JNI: V2Ray启动结果: %d" [r]

/-- The log line of the stop entry point. -/
def stopLog : Event :=
  Event.android_log_print android_LogPriority.ANDROID_LOG_INFO "V2RayBridge" "JNI: 停止V2Ray" []

/-- The log line of the version entry point. -/
def versionLog : Event :=
  Event.android_log_print android_LogPriority.ANDROID_LOG_INFO "V2RayBridge" "JNI: 获取V2Ray版本" []

/-- Core that reports the version `4` (at address 1) as long as the history
holds at most one event and the version `5` (at address 2) afterwards. -/
def upgradedCore : V2RayCore where
  startV2Ray := fun _ _ => 0
  stopV2Ray := fun _ => 0
  getV2RayVersion := fun h => if h.length ≤ 1 then CharPtr.buf 1 [52] else CharPtr.buf 2 [53]

/-- History left by one call of the version entry point on `upgradedCore`
and `stubEnv`, in which the core answered with the version `4`. -/
def earlierVersionCall : World :=
  [versionLog, Event.getV2RayVersion (CharPtr.buf 1 [52]),
    Event.NewStringUTF (CharPtr.buf 1 [52]) (jstring.ref 1)]

/-! ## What a run of each entry point does -/

/-- A run that appends `l` to the history has emitted `l`. -/
theorem emitted_append (w l : List Event) : emitted w (w ++ l) = l := by
  simp [emitted]

/-- The start entry point: returned value and final history, where `p` is the
runtime's answer to `GetStringUTFChars` and `r` the core's answer to
`startV2Ray`. -/
theorem start_run (core : V2RayCore) (env : JNIEnv) (thiz : jobject) (configPath : jstring)
    (w : World) (p : CharPtr) (r : Int)
    (hp : env.functions.GetStringUTFChars (w ++ [startLog]) configPath = p)
    (hr : core.startV2Ray (w ++ [startLog, Event.GetStringUTFChars configPath p]) p = r) :
    Java_com_v2ray_ang_flutter_1v2_1android_v2ray_V2RayNative_startV2Ray core env thiz
        configPath w
      = (r, w ++ [startLog, Event.GetStringUTFChars configPath p, Event.startV2Ray p r,
          Event.ReleaseStringUTFChars configPath p, startResultLog r]) := by
  subst hp hr
  simp [Java_com_v2ray_ang_flutter_1v2_1android_v2ray_V2RayNative_startV2Ray, LOGI,
    __android_log_print, JNIEnv.GetStringUTFChars, JNIEnv.ReleaseStringUTFChars, startV2Ray,
    startLog, startResultLog, TAG, bind, StateT.bind, pure, StateT.pure]


/-- The stop entry point: returned value and final history. -/
theorem stop_run (core : V2RayCore) (env : JNIEnv) (thiz : jobject) (w : World) :
    Java_com_v2ray_ang_flutter_1v2_1android_v2ray_V2RayNative_stopV2Ray core env thiz w
      = ((), w ++ [stopLog, Event.stopV2Ray (core.stopV2Ray (w ++ [stopLog]))]) := by
  simp [Java_com_v2ray_ang_flutter_1v2_1android_v2ray_V2RayNative_stopV2Ray, LOGI,
    __android_log_print, stopV2Ray, stopLog, TAG, bind, StateT.bind, pure, StateT.pure]

/-- The version entry point: returned value and final history, where `v` is
the core's answer to `getV2RayVersion` and `s` the runtime's answer to
`NewStringUTF`. -/
theorem version_run (core : V2RayCore) (env : JNIEnv) (thiz : jobject) (w : World)
    (v : CharPtr) (s : jstring)
    (hv : core.getV2RayVersion (w ++ [versionLog]) = v)
    (hs : env.functions.NewStringUTF (w ++ [versionLog, Event.getV2RayVersion v]) v = s) :
    Java_com_v2ray_ang_flutter_1v2_1android_v2ray_V2RayNative_getV2RayVersion core env thiz w
      = (s, w ++ [versionLog, Event.getV2RayVersion v, Event.NewStringUTF v s]) := by
  subst hv hs
  simp [Java_com_v2ray_ang_flutter_1v2_1android_v2ray_V2RayNative_getV2RayVersion, LOGI,
    __android_log_print, getV2RayVersion, JNIEnv.NewStringUTF, versionLog, TAG, bind,
    StateT.bind]

/-! ## The claims -/

/-- C1: whatever integer `r` the core's `startV2Ray` returns when the start
entry point calls it, the entry point returns exactly `r`, and `r` is the only
result the core produced during the call. -/
theorem start_returns_core_result (core : V2RayCore) (env : JNIEnv) (thiz : jobject)
    (configPath : jstring) (w : World) (r : Int)
    (hr : core.startV2Ray
        (w ++ [startLog, Event.GetStringUTFChars configPath
          (env.functions.GetStringUTFChars (w ++ [startLog]) configPath)])
        (env.functions.GetStringUTFChars (w ++ [startLog]) configPath) = r) :
    (Java_com_v2ray_ang_flutter_1v2_1android_v2ray_V2RayNative_startV2Ray core env thiz
        configPath w).1 = r
      ∧ coreStartResults (emitted w
          (Java_com_v2ray_ang_flutter_1v2_1android_v2ray_V2RayNative_startV2Ray core env thiz
            configPath w).2) = [r] := by
  rw [start_run core env thiz configPath w _ r rfl hr, emitted_append]
  simp [coreStartResults, startLog, startResultLog]

/-- Witness of C1 on stubbed cores returning a negative, a zero and a positive
code. -/
theorem start_returns_core_result_witness :
    ((Java_com_v2ray_ang_flutter_1v2_1android_v2ray_V2RayNative_startV2Ray
        (stubCore (-7) CharPtr.null) stubEnv jobject.null (jstring.ref 1) []).1 = -7
      ∧ coreStartResults (emitted []
          (Java_com_v2ray_ang_flutter_1v2_1android_v2ray_V2RayNative_startV2Ray
            (stubCore (-7) CharPtr.null) stubEnv jobject.null (jstring.ref 1) []).2) = [-7])
    ∧ ((Java_com_v2ray_ang_flutter_1v2_1android_v2ray_V2RayNative_startV2Ray
        (stubCore 0 CharPtr.null) stubEnv jobject.null (jstring.ref 1) []).1 = 0
      ∧ coreStartResults (emitted []
          (Java_com_v2ray_ang_flutter_1v2_1android_v2ray_V2RayNative_startV2Ray
            (stubCore 0 CharPtr.null) stubEnv jobject.null (jstring.ref 1) []).2) = [0])
    ∧ ((Java_com_v2ray_ang_flutter_1v2_1android_v2ray_V2RayNative_startV2Ray
        (stubCore 2147483647 CharPtr.null) stubEnv jobject.null (jstring.ref 1) []).1
          = 2147483647
      ∧ coreStartResults (emitted []
          (Java_com_v2ray_ang_flutter_1v2_1android_v2ray_V2RayNative_startV2Ray
            (stubCore 2147483647 CharPtr.null) stubEnv jobject.null (jstring.ref 1) []).2)
          = [2147483647]) :=
  ⟨start_returns_core_result (stubCore (-7) CharPtr.null) stubEnv jobject.null (jstring.ref 1)
      [] (-7) rfl,
    start_returns_core_result (stubCore 0 CharPtr.null) stubEnv jobject.null (jstring.ref 1)
      [] 0 rfl,
    start_returns_core_result (stubCore 2147483647 CharPtr.null) stubEnv jobject.null
      (jstring.ref 1) [] 2147483647 rfl⟩

/-- C2: the argument the core's `startV2Ray` is called with is exactly the
native string that `GetStringUTFChars` produced for `configPath`: the same
address and the same bytes, and the core is called with nothing else. -/
theorem start_passes_path_verbatim (core : V2RayCore) (env : JNIEnv) (thiz : jobject)
    (configPath : jstring) (w : World) :
    acquired (emitted w (Java_com_v2ray_ang_flutter_1v2_1android_v2ray_V2RayNative_startV2Ray core env thiz configPath w).2)
        = [(configPath, env.functions.GetStringUTFChars (w ++ [startLog]) configPath)]
      ∧ coreStartArgs (emitted w (Java_com_v2ray_ang_flutter_1v2_1android_v2ray_V2RayNative_startV2Ray core env thiz configPath w).2)
        = [env.functions.GetStringUTFChars (w ++ [startLog]) configPath] := by
  rw [start_run core env thiz configPath w _ _ rfl rfl, emitted_append]
  simp [acquired, coreStartArgs, startLog, startResultLog]

/-- C3: during a call of the start entry point the native string is borrowed
once, for `configPath`, and released once, with the same `configPath` and the
same pointer; nothing is released before the core call has returned, and the
one release is in the part of the run that follows the core call. -/
theorem start_releases_exactly_once (core : V2RayCore) (env : JNIEnv) (thiz : jobject)
    (configPath : jstring) (w : World) :
    acquired (emitted w (Java_com_v2ray_ang_flutter_1v2_1android_v2ray_V2RayNative_startV2Ray core env thiz configPath w).2)
        = [(configPath, env.functions.GetStringUTFChars (w ++ [startLog]) configPath)]
      ∧ released (emitted w (Java_com_v2ray_ang_flutter_1v2_1android_v2ray_V2RayNative_startV2Ray core env thiz configPath w).2)
        = [(configPath, env.functions.GetStringUTFChars (w ++ [startLog]) configPath)]
      ∧ released (beforeCoreCall (emitted w (Java_com_v2ray_ang_flutter_1v2_1android_v2ray_V2RayNative_startV2Ray core env thiz configPath w).2)) = []
      ∧ released (afterCoreCall (emitted w (Java_com_v2ray_ang_flutter_1v2_1android_v2ray_V2RayNative_startV2Ray core env thiz configPath w).2))
        = [(configPath, env.functions.GetStringUTFChars (w ++ [startLog]) configPath)]
      ∧ (Java_com_v2ray_ang_flutter_1v2_1android_v2ray_V2RayNative_startV2Ray core env thiz configPath w).2
        = w ++ emitted w (Java_com_v2ray_ang_flutter_1v2_1android_v2ray_V2RayNative_startV2Ray core env thiz configPath w).2 := by
  rw [start_run core env thiz configPath w _ _ rfl rfl, emitted_append]
  simp [acquired, released, beforeCoreCall, afterCoreCall, Event.isCoreCall, startLog,
    startResultLog, List.takeWhile, List.dropWhile]

/-- C4: when the core's `getV2RayVersion` returns a non-null string `v`, the
version entry point asks the core once, passes `v` as it is to `NewStringUTF`
and returns what `NewStringUTF` built from it, whatever the earlier history. -/
theorem version_returns_core_string (core : V2RayCore) (env : JNIEnv) (thiz : jobject)
    (w : World) (addr : Nat) (bytes : List Byte)
    (hv : core.getV2RayVersion (w ++ [versionLog]) = CharPtr.buf addr bytes) :
    (Java_com_v2ray_ang_flutter_1v2_1android_v2ray_V2RayNative_getV2RayVersion core env thiz w).1
        = env.functions.NewStringUTF
            (w ++ [versionLog, Event.getV2RayVersion (CharPtr.buf addr bytes)])
            (CharPtr.buf addr bytes)
      ∧ emitted w (Java_com_v2ray_ang_flutter_1v2_1android_v2ray_V2RayNative_getV2RayVersion core env thiz w).2
        = [versionLog, Event.getV2RayVersion (CharPtr.buf addr bytes),
            Event.NewStringUTF (CharPtr.buf addr bytes) (Java_com_v2ray_ang_flutter_1v2_1android_v2ray_V2RayNative_getV2RayVersion core env thiz w).1] := by
  rw [version_run core env thiz w _ _ hv rfl, emitted_append]
  simp

/-- Witness of C4: after an earlier call in which the core answered `4`, the
core answers `5` and the entry point returns the string built from `5`. -/
theorem version_returns_core_string_witness :
    upgradedCore.getV2RayVersion (earlierVersionCall ++ [versionLog]) = CharPtr.buf 2 [53]
    ∧ ((Java_com_v2ray_ang_flutter_1v2_1android_v2ray_V2RayNative_getV2RayVersion upgradedCore stubEnv jobject.null earlierVersionCall).1
        = stubEnv.functions.NewStringUTF
            (earlierVersionCall ++ [versionLog, Event.getV2RayVersion (CharPtr.buf 2 [53])])
            (CharPtr.buf 2 [53])
      ∧ emitted earlierVersionCall
          (Java_com_v2ray_ang_flutter_1v2_1android_v2ray_V2RayNative_getV2RayVersion upgradedCore stubEnv jobject.null earlierVersionCall).2
        = [versionLog, Event.getV2RayVersion (CharPtr.buf 2 [53]),
            Event.NewStringUTF (CharPtr.buf 2 [53])
              (Java_com_v2ray_ang_flutter_1v2_1android_v2ray_V2RayNative_getV2RayVersion upgradedCore stubEnv jobject.null earlierVersionCall).1]) :=
  ⟨rfl, version_returns_core_string upgradedCore stubEnv jobject.null earlierVersionCall 2 [53]
    rfl⟩

/-- C5: every call of the stop entry point calls the core's `stopV2Ray`
exactly once, whatever integer it returns, and calls neither `startV2Ray` nor
`getV2RayVersion`. -/
theorem stop_calls_core_exactly_once (core : V2RayCore) (env : JNIEnv) (thiz : jobject)
    (w : World) :
    (emitted w (Java_com_v2ray_ang_flutter_1v2_1android_v2ray_V2RayNative_stopV2Ray core env thiz w).2).countP Event.isStopCall = 1
      ∧ (emitted w (Java_com_v2ray_ang_flutter_1v2_1android_v2ray_V2RayNative_stopV2Ray core env thiz w).2).countP Event.isStartCall = 0
      ∧ (emitted w (Java_com_v2ray_ang_flutter_1v2_1android_v2ray_V2RayNative_stopV2Ray core env thiz w).2).countP Event.isVersionCall = 0
      ∧ (emitted w (Java_com_v2ray_ang_flutter_1v2_1android_v2ray_V2RayNative_stopV2Ray core env thiz w).2).filter Event.isCoreCall
        = [Event.stopV2Ray (core.stopV2Ray (w ++ [stopLog]))] := by
  rw [stop_run, emitted_append]
  simp [stopLog, Event.isStopCall, Event.isStartCall, Event.isVersionCall, Event.isCoreCall]

/-- C6: two runs of the stop entry point that differ only in what the core's
`stopV2Ray` returns give the caller the same (void) result, write the same log
lines, and make the same external calls apart from the recorded answer of
`stopV2Ray` itself. -/
theorem stop_discards_core_result (core : V2RayCore) (env : JNIEnv) (thiz : jobject)
    (w : World) (f g : World → Int) :
    (Java_com_v2ray_ang_flutter_1v2_1android_v2ray_V2RayNative_stopV2Ray { core with stopV2Ray := f } env thiz w).1
        = (Java_com_v2ray_ang_flutter_1v2_1android_v2ray_V2RayNative_stopV2Ray { core with stopV2Ray := g } env thiz w).1
      ∧ logLines (emitted w (Java_com_v2ray_ang_flutter_1v2_1android_v2ray_V2RayNative_stopV2Ray { core with stopV2Ray := f } env thiz w).2)
        = logLines (emitted w (Java_com_v2ray_ang_flutter_1v2_1android_v2ray_V2RayNative_stopV2Ray { core with stopV2Ray := g } env thiz w).2)
      ∧ (emitted w (Java_com_v2ray_ang_flutter_1v2_1android_v2ray_V2RayNative_stopV2Ray { core with stopV2Ray := f } env thiz w).2).filter
          (fun e => !e.isStopCall)
        = (emitted w (Java_com_v2ray_ang_flutter_1v2_1android_v2ray_V2RayNative_stopV2Ray { core with stopV2Ray := g } env thiz w).2).filter
          (fun e => !e.isStopCall) := by
  rw [stop_run, stop_run, emitted_append, emitted_append]
  simp [logLines, stopLog, Event.isLog, Event.isStopCall]

/-- C7, as stated, fails for the stop entry point: on the stubbed core and
runtime it writes one log line before the core call and none after it. -/
theorem stop_post_call_log_counterexample :
    ¬ ((logLines (beforeCoreCall (emitted []
          (Java_com_v2ray_ang_flutter_1v2_1android_v2ray_V2RayNative_stopV2Ray (stubCore 0 CharPtr.null) stubEnv jobject.null []).2))).length = 1
      ∧ (logLines (afterCoreCall (emitted []
          (Java_com_v2ray_ang_flutter_1v2_1android_v2ray_V2RayNative_stopV2Ray (stubCore 0 CharPtr.null) stubEnv jobject.null []).2))).length = 1) := by
  decide

/-- C7, amended: the start entry point writes exactly one log line before the
core call and exactly one after it; the stop entry point writes exactly one
log line, before the core call, and none after it; the version entry point
writes exactly one log line in total, before the core call.  Each entry point
makes exactly one core call, whatever the core returns. -/
theorem log_lines_per_entry_point (core : V2RayCore) (env : JNIEnv) (thiz : jobject)
    (configPath : jstring) (w : World) :
    ((emitted w (Java_com_v2ray_ang_flutter_1v2_1android_v2ray_V2RayNative_startV2Ray core env thiz configPath w).2).countP Event.isCoreCall = 1
      ∧ (logLines (beforeCoreCall (emitted w
          (Java_com_v2ray_ang_flutter_1v2_1android_v2ray_V2RayNative_startV2Ray core env thiz configPath w).2))).length = 1
      ∧ (logLines (afterCoreCall (emitted w
          (Java_com_v2ray_ang_flutter_1v2_1android_v2ray_V2RayNative_startV2Ray core env thiz configPath w).2))).length = 1)
    ∧ ((emitted w (Java_com_v2ray_ang_flutter_1v2_1android_v2ray_V2RayNative_stopV2Ray core env thiz w).2).countP Event.isCoreCall = 1
      ∧ (logLines (beforeCoreCall (emitted w (Java_com_v2ray_ang_flutter_1v2_1android_v2ray_V2RayNative_stopV2Ray core env thiz w).2))).length = 1
      ∧ (logLines (afterCoreCall (emitted w (Java_com_v2ray_ang_flutter_1v2_1android_v2ray_V2RayNative_stopV2Ray core env thiz w).2))).length = 0)
    ∧ ((emitted w (Java_com_v2ray_ang_flutter_1v2_1android_v2ray_V2RayNative_getV2RayVersion core env thiz w).2).countP Event.isCoreCall = 1
      ∧ (logLines (emitted w (Java_com_v2ray_ang_flutter_1v2_1android_v2ray_V2RayNative_getV2RayVersion core env thiz w).2)).length = 1
      ∧ (logLines (beforeCoreCall (emitted w (Java_com_v2ray_ang_flutter_1v2_1android_v2ray_V2RayNative_getV2RayVersion core env thiz w).2))).length = 1) := by
  rw [start_run core env thiz configPath w _ _ rfl rfl, stop_run,
    version_run core env thiz w _ _ rfl rfl, emitted_append, emitted_append, emitted_append]
  simp [logLines, beforeCoreCall, afterCoreCall, Event.isCoreCall, Event.isLog, startLog,
    startResultLog, stopLog, versionLog, List.takeWhile, List.dropWhile]

/-- C8: for every config path, whatever `GetStringUTFChars` yields for it and
whatever the core returns, the start entry point calls the core's `startV2Ray`
exactly once and makes no other call into the core. -/
theorem start_calls_core_exactly_once (core : V2RayCore) (env : JNIEnv) (thiz : jobject)
    (configPath : jstring) (w : World) :
    (emitted w (Java_com_v2ray_ang_flutter_1v2_1android_v2ray_V2RayNative_startV2Ray core env thiz configPath w).2).countP Event.isStartCall = 1
      ∧ (emitted w (Java_com_v2ray_ang_flutter_1v2_1android_v2ray_V2RayNative_startV2Ray core env thiz configPath w).2).countP Event.isCoreCall = 1 := by
  rw [start_run core env thiz configPath w _ _ rfl rfl, emitted_append]
  simp [Event.isStartCall, Event.isCoreCall, startLog, startResultLog]

/-- C9: when the core's `getV2RayVersion` returns a null pointer, the version
entry point passes that null to `NewStringUTF` and returns what it yields; the
run is the one log line, the core call and the `NewStringUTF` call, with no
other log line and no other string. -/
theorem version_forwards_null (core : V2RayCore) (env : JNIEnv) (thiz : jobject) (w : World)
    (hv : core.getV2RayVersion (w ++ [versionLog]) = CharPtr.null) :
    (Java_com_v2ray_ang_flutter_1v2_1android_v2ray_V2RayNative_getV2RayVersion core env thiz w).1
        = env.functions.NewStringUTF
            (w ++ [versionLog, Event.getV2RayVersion CharPtr.null]) CharPtr.null
      ∧ emitted w (Java_com_v2ray_ang_flutter_1v2_1android_v2ray_V2RayNative_getV2RayVersion core env thiz w).2
        = [versionLog, Event.getV2RayVersion CharPtr.null,
            Event.NewStringUTF CharPtr.null (Java_com_v2ray_ang_flutter_1v2_1android_v2ray_V2RayNative_getV2RayVersion core env thiz w).1] := by
  rw [version_run core env thiz w _ _ hv rfl, emitted_append]
  simp

/-- Witness of C9 on a stubbed core whose version is the null pointer. -/
theorem version_forwards_null_witness :
    (stubCore 0 CharPtr.null).getV2RayVersion ([] ++ [versionLog]) = CharPtr.null
    ∧ ((Java_com_v2ray_ang_flutter_1v2_1android_v2ray_V2RayNative_getV2RayVersion (stubCore 0 CharPtr.null) stubEnv jobject.null []).1
        = stubEnv.functions.NewStringUTF
            ([] ++ [versionLog, Event.getV2RayVersion CharPtr.null]) CharPtr.null
      ∧ emitted [] (Java_com_v2ray_ang_flutter_1v2_1android_v2ray_V2RayNative_getV2RayVersion (stubCore 0 CharPtr.null) stubEnv jobject.null []).2
        = [versionLog, Event.getV2RayVersion CharPtr.null,
            Event.NewStringUTF CharPtr.null
              (Java_com_v2ray_ang_flutter_1v2_1android_v2ray_V2RayNative_getV2RayVersion (stubCore 0 CharPtr.null) stubEnv jobject.null []).1]) :=
  ⟨rfl, version_forwards_null (stubCore 0 CharPtr.null) stubEnv jobject.null [] rfl⟩

/-- C10: when `GetStringUTFChars` yields a null pointer, the start entry point
still calls the core's `startV2Ray`, with the null pointer, still calls
`ReleaseStringUTFChars` with `configPath` and the null pointer, writes its
second log line and returns the core's result: the run has the same five
steps as any other. -/
theorem start_forwards_null_path (core : V2RayCore) (env : JNIEnv) (thiz : jobject)
    (configPath : jstring) (w : World)
    (hp : env.functions.GetStringUTFChars (w ++ [startLog]) configPath = CharPtr.null) :
    emitted w (Java_com_v2ray_ang_flutter_1v2_1android_v2ray_V2RayNative_startV2Ray core env thiz configPath w).2
        = [startLog, Event.GetStringUTFChars configPath CharPtr.null,
            Event.startV2Ray CharPtr.null
              (core.startV2Ray
                (w ++ [startLog, Event.GetStringUTFChars configPath CharPtr.null])
                CharPtr.null),
            Event.ReleaseStringUTFChars configPath CharPtr.null,
            startResultLog
              (core.startV2Ray
                (w ++ [startLog, Event.GetStringUTFChars configPath CharPtr.null])
                CharPtr.null)]
      ∧ (Java_com_v2ray_ang_flutter_1v2_1android_v2ray_V2RayNative_startV2Ray core env thiz configPath w).1
        = core.startV2Ray (w ++ [startLog, Event.GetStringUTFChars configPath CharPtr.null])
            CharPtr.null := by
  rw [start_run core env thiz configPath w _ _ hp rfl, emitted_append]
  simp

/-- Witness of C10 on the stubbed runtime, which yields a null pointer for a
null `configPath`. -/
theorem start_forwards_null_path_witness :
    stubEnv.functions.GetStringUTFChars ([] ++ [startLog]) jstring.null = CharPtr.null
    ∧ (emitted [] (Java_com_v2ray_ang_flutter_1v2_1android_v2ray_V2RayNative_startV2Ray (stubCore (-1) CharPtr.null) stubEnv jobject.null jstring.null []).2
        = [startLog, Event.GetStringUTFChars jstring.null CharPtr.null,
            Event.startV2Ray CharPtr.null
              ((stubCore (-1) CharPtr.null).startV2Ray
                ([] ++ [startLog, Event.GetStringUTFChars jstring.null CharPtr.null])
                CharPtr.null),
            Event.ReleaseStringUTFChars jstring.null CharPtr.null,
            startResultLog
              ((stubCore (-1) CharPtr.null).startV2Ray
                ([] ++ [startLog, Event.GetStringUTFChars jstring.null CharPtr.null])
                CharPtr.null)]
      ∧ (Java_com_v2ray_ang_flutter_1v2_1android_v2ray_V2RayNative_startV2Ray (stubCore (-1) CharPtr.null) stubEnv jobject.null jstring.null []).1
        = (stubCore (-1) CharPtr.null).startV2Ray
            ([] ++ [startLog, Event.GetStringUTFChars jstring.null CharPtr.null])
            CharPtr.null) :=
  ⟨rfl, start_forwards_null_path (stubCore (-1) CharPtr.null) stubEnv jobject.null
    jstring.null [] rfl⟩

end V2RayBridge
